import Mathlib

/-!
Verification development for the PharmaGuard repository (rift26-hackathon).

The development shallowly embeds the JavaScript/TypeScript client code of the
repository into Lean: the API helper functions of Frontend/lib/api.ts and
frontend2/lib/api.ts, the page logic of frontend2/app/page.jsx,
frontend2/app/results/page.jsx and Frontend/app/results/page.jsx, the
RiskCard component of frontend2/components/pharmaguard/RiskCard.jsx, and the
demo data of Frontend/lib/mock-data.js.  JavaScript strings are Lean strings;
JavaScript numbers appearing in the risk-score arithmetic are rationals, with
Math.round embedded as the floor of x + 1/2; fetch is modelled by passing the
HTTP response (or the network as a function from requests to responses) as an
explicit argument, and a rejected promise is the error case of Except.

The analysis backend of the repository (the /analyze endpoint with its
ReportAssembler) is not among the provided sources; where a claim depends on
it, a definition explicitly marked as modelled from the specification stands
in for it.
-/

/-! ## JavaScript primitives -/

/-- Embedding of the JavaScript string method toUpperCase, character by
character (the drug names handled by the repository are ASCII). -/
def jsToUpperCase (s : String) : String := ⟨s.data.map Char.toUpper⟩

/-- Embedding of the JavaScript string method trim: drop whitespace from both
ends. -/
def jsTrim (s : String) : String :=
  ⟨((s.data.dropWhile Char.isWhitespace).reverse.dropWhile Char.isWhitespace).reverse⟩

/-- Splitting of a character list at commas; auxiliary for jsSplitComma. -/
def splitChars : List Char → List (List Char)
  | [] => [[]]
  | c :: rest =>
    match splitChars rest with
    | [] => [[]]
    | cur :: acc => if c = ',' then [] :: cur :: acc else (c :: cur) :: acc

/-- Embedding of the JavaScript call s.split with separator a comma. -/
def jsSplitComma (s : String) : List String := (splitChars s.data).map String.mk

/-- Embedding of the JavaScript expression a || b for strings: b when a is
empty (falsy), a otherwise. -/
def jsOrStr (a b : String) : String := if a = "" then b else a

/-- Embedding of the JavaScript expression a || b where a may be undefined
(modelled as an Option) and is otherwise a string. -/
def jsOrOpt (a : Option String) (b : String) : String :=
  match a with
  | some s => if s = "" then b else s
  | none => b

/-- Embedding of JavaScript Math.round on the rationals produced by the
risk-score arithmetic: round half toward positive infinity. -/
def jsRound (x : ℚ) : ℤ := ⌊x + 1/2⌋

/-- Truthiness of a nullable JavaScript string (null and the empty string are
falsy). -/
def jsTruthyStr : Option String → Bool
  | some s => !(s == "")
  | none => false

/-! ## Data model

Lean counterparts of the TypeScript interfaces of Frontend/lib/api.ts and
frontend2/lib/api.ts.  Fields that no embedded function reads (timestamp,
quality_metrics, detected_variants and the metadata of the multi-drug
response) are omitted. -/

/-- RiskAssessment of Frontend/lib/api.ts: risk_label, confidence_score and
severity of one analysed drug. -/
structure RiskAssessment where
  risk_label : String
  confidence_score : ℚ
  severity : String
deriving DecidableEq

/-- PharmacogenomicProfile of Frontend/lib/api.ts (detected_variants
omitted). -/
structure PharmacogenomicProfile where
  primary_gene : String
  diplotype : String
  phenotype : String
deriving DecidableEq

/-- ClinicalRecommendation of Frontend/lib/api.ts (optional fields
dose_adjustment and monitoring omitted). -/
structure ClinicalRecommendation where
  action : String
  alternative_drugs : List String
deriving DecidableEq

/-- LLMExplanation of Frontend/lib/api.ts. -/
structure LLMExplanation where
  summary : String
  mechanism : String
  guideline_reference : String
deriving DecidableEq

/-- AnalysisResult of Frontend/lib/api.ts (equally DrugAnalysis of
frontend2/lib/api.ts): the per-drug analysis object of the backend. -/
structure AnalysisResult where
  patient_id : String
  drug : String
  risk_assessment : RiskAssessment
  pharmacogenomic_profile : PharmacogenomicProfile
  clinical_recommendation : ClinicalRecommendation
  llm_generated_explanation : LLMExplanation
deriving DecidableEq

/-- Union type AnalysisResult | MultiDrugAnalysisResponse of the API layer.
The multi constructor carries the analyses array whose presence the type
guard isMultiDrugResponse tests. -/
inductive AnalysisResponse where
  | single (a : AnalysisResult)
  | multi (analyses : List AnalysisResult)
deriving DecidableEq

/-- Shape of the drug field of the analyze request body: a bare string or an
array of strings (Union of str and list of str, as the comment in
Frontend/lib/api.ts documents). -/
inductive DrugField where
  | one (d : String)
  | many (ds : List String)
deriving DecidableEq

/-- Result shape consumed by the RiskCard component, also the shape of the
entries of mockRiskResults in Frontend/lib/mock-data.js. -/
structure RiskCardResult where
  drug : String
  riskLevel : String
  riskScore : ℤ
  summary : String
  recommendation : String
  affectedGenes : List String
  evidenceLevel : String
  guidelines : String
deriving DecidableEq

/-- HTTP response as the api.ts helpers observe it: the ok flag, the numeric
status, the outcome of parsing the error body as JSON (none when the body is
not JSON, otherwise the value of the detail field, itself absent when the
JSON has no detail), and the already parsed success body. -/
structure HttpResponse (β : Type) where
  ok : Bool
  status : Nat
  errorBody : Option (Option String)
  successBody : β

/-- UploadVCFResponse of Frontend/lib/api.ts (fields beyond the identifiers
omitted). -/
structure UploadVCFResponse where
  session_id : String
  sample_id : String
deriving DecidableEq

/-- Outcome of the fetch performed by the Results effect of
Frontend/app/results/page.jsx: a parsed success body, or a rejection carrying
the error message. -/
inductive FetchOutcome where
  | success (data : AnalysisResponse)
  | failure (message : String)
deriving DecidableEq

/-! ## Frontend/lib/api.ts -/

/-- Normalization performed inside analyzeDrugs of Frontend/lib/api.ts: every
drug name is trimmed and uppercased before the request is built. -/
def normalizedDrugs (drugs : List String) : List String :=
  drugs.map (fun d => jsToUpperCase (jsTrim d))

/-- Drug field of the request body built by analyzeDrugs of
Frontend/lib/api.ts: a bare string when exactly one drug remains after
normalization, the array otherwise. -/
def analyzeRequestDrug : List String → DrugField
  | [d] => DrugField.one d
  | ds => DrugField.many ds

/-- analyzeDrugs of Frontend/lib/api.ts.  The network is an explicit argument
mapping the request drug field to the HTTP response; a thrown Error is the
error case of Except, carrying the message. -/
def analyzeDrugs (sessionId : String) (drugs : List String)
    (net : DrugField → HttpResponse AnalysisResponse) : Except String AnalysisResponse :=
  if sessionId = "" then
    Except.error "session_id is required. Please upload a VCF file first."
  else if drugs.length = 0 then
    Except.error "At least one drug must be specified."
  else
    let res := net (analyzeRequestDrug (normalizedDrugs drugs))
    if res.ok then Except.ok res.successBody
    else
      match res.errorBody with
      | none => Except.error ("Analysis failed with status " ++ toString res.status)
      | some d => Except.error (jsOrOpt d "Analysis failed")

/-- uploadVCF of Frontend/lib/api.ts, response handling part (the request is
a form upload whose content does not influence the embedded behaviour). -/
def uploadVCF (res : HttpResponse UploadVCFResponse) : Except String UploadVCFResponse :=
  if res.ok then Except.ok res.successBody
  else
    match res.errorBody with
    | none => Except.error ("Upload failed with status " ++ toString res.status)
    | some d => Except.error (jsOrOpt d "VCF upload failed")

/-- isMultiDrugResponse of Frontend/lib/api.ts: the type guard testing for the
presence of the analyses field. -/
def isMultiDrugResponse : AnalysisResponse → Bool
  | AnalysisResponse.multi _ => true
  | AnalysisResponse.single _ => false

/-- normalizeAnalysisResponse of Frontend/lib/api.ts: the analyses array of a
multi-drug response, the one-element array for a single-drug response. -/
def normalizeAnalysisResponse (response : AnalysisResponse) : List AnalysisResult :=
  match response with
  | AnalysisResponse.multi analyses => analyses
  | AnalysisResponse.single a => [a]

/-- mapRiskLabel of Frontend/lib/api.ts: record lookup with fallback to
safe. -/
def mapRiskLabel (l : String) : String :=
  if l = "Safe" then "safe"
  else if l = "Adjust Dosage" then "adjust"
  else if l = "Toxic" then "toxic"
  else if l = "Ineffective" then "toxic"
  else if l = "Unknown" then "safe"
  else "safe"

/-! ## frontend2/app/page.jsx and frontend2/lib/api.ts -/

/-- drugsUppercase of handleAnalyze in frontend2/app/page.jsx: the selected
drug identifiers, uppercased in selection order. -/
def drugsUppercase (selectedDrugs : List String) : List String :=
  selectedDrugs.map jsToUpperCase

/-- Normalization inlined in handleAnalyze of frontend2/app/page.jsx: the
analyses array when the response has one, the singleton otherwise. -/
def handleAnalyzeNormalize (data : AnalysisResponse) : List AnalysisResult :=
  match data with
  | AnalysisResponse.multi analyses => analyses
  | AnalysisResponse.single a => [a]

/-- Drug field of the request sent by handleAnalyze of
frontend2/app/page.jsx: analyzeDrugs of frontend2/lib/api.ts forwards the
drugs argument unchanged into the request body, and handleAnalyze passes the
uppercased selection array. -/
def handleAnalyzeRequestDrugs (selectedDrugs : List String) : DrugField :=
  DrugField.many (drugsUppercase selectedDrugs)

/-! ## frontend2/app/results/page.jsx -/

/-- mapRiskLevel of frontend2/app/results/page.jsx: record lookup with
fallback to safe. -/
def mapRiskLevel (riskLabel : String) : String :=
  if riskLabel = "Safe" then "safe"
  else if riskLabel = "Adjust Dosage" then "adjust"
  else if riskLabel = "Toxic" then "toxic"
  else if riskLabel = "Ineffective" then "toxic"
  else if riskLabel = "Unknown" then "safe"
  else "safe"

/-- mapRiskScore of frontend2/app/results/page.jsx: confidence mapped to a
display score out of 100 depending on the risk label. -/
def mapRiskScore (analysis : AnalysisResult) : ℤ :=
  let l := analysis.risk_assessment.risk_label
  let confidence := analysis.risk_assessment.confidence_score
  if l = "Safe" then jsRound ((1 - confidence) * 30)
  else if l = "Adjust Dosage" then jsRound (40 + confidence * 30)
  else if l = "Toxic" ∨ l = "Ineffective" then jsRound (60 + confidence * 40)
  else 50

/-- toRiskCardProps of frontend2/app/results/page.jsx. -/
def toRiskCardProps (analysis : AnalysisResult) : RiskCardResult :=
  { drug := analysis.drug
    riskLevel := mapRiskLevel analysis.risk_assessment.risk_label
    riskScore := mapRiskScore analysis
    affectedGenes := [analysis.pharmacogenomic_profile.primary_gene]
    summary := jsOrStr analysis.llm_generated_explanation.summary "No summary available."
    recommendation := analysis.clinical_recommendation.action
    guidelines := analysis.risk_assessment.risk_label
    evidenceLevel := if analysis.risk_assessment.severity = "Critical" then "A" else "B" }

/-- Severity rank of the sort comparator of the risk-card section in
frontend2/app/results/page.jsx: the order record, with 5 for a label absent
from it. -/
def riskOrder (l : String) : Nat :=
  if l = "Toxic" then 0
  else if l = "Ineffective" then 1
  else if l = "Adjust Dosage" then 2
  else if l = "Safe" then 3
  else if l = "Unknown" then 4
  else 5

/-- Sorted copy of the analyses rendered as risk cards by
frontend2/app/results/page.jsx: a stable sort under the comparator
subtracting the severity ranks. -/
def sortAnalysesBySeverity (analyses : List AnalysisResult) : List AnalysisResult :=
  analyses.mergeSort
    (fun a b => decide (riskOrder a.risk_assessment.risk_label ≤ riskOrder b.risk_assessment.risk_label))

/-- Toxic counter of SummaryBanner in frontend2/app/results/page.jsx. -/
def summaryBannerToxic (analyses : List AnalysisResult) : Nat :=
  (analyses.filter (fun a =>
    a.risk_assessment.risk_label == "Toxic" || a.risk_assessment.risk_label == "Ineffective")).length

/-- Adjust counter of SummaryBanner in frontend2/app/results/page.jsx. -/
def summaryBannerAdjust (analyses : List AnalysisResult) : Nat :=
  (analyses.filter (fun a => a.risk_assessment.risk_label == "Adjust Dosage")).length

/-- Safe counter of SummaryBanner in frontend2/app/results/page.jsx. -/
def summaryBannerSafe (analyses : List AnalysisResult) : Nat :=
  (analyses.filter (fun a => a.risk_assessment.risk_label == "Safe")).length

/-! ## frontend2/components/pharmaguard/RiskCard.jsx -/

/-- Style record entry of the riskConfig object of RiskCard.jsx (the icon
component is omitted; the class-string fields keep their source order). -/
structure RiskStyle where
  lbl : String
  badgeCls : String
  borderCls : String
  bgCls : String
  iconBg : String
  iconColor : String
  barColor : String
deriving DecidableEq

/-- riskConfig.safe of RiskCard.jsx. -/
def riskConfigSafe : RiskStyle :=
  { lbl := "Safe to Use"
    badgeCls := "bg-safe-light text-safe"
    borderCls := "border-safe/20"
    bgCls := "bg-safe-light/30"
    iconBg := "bg-safe/10"
    iconColor := "text-safe"
    barColor := "bg-safe" }

/-- riskConfig.adjust of RiskCard.jsx. -/
def riskConfigAdjust : RiskStyle :=
  { lbl := "Adjust Dosage"
    badgeCls := "bg-warning-light text-warning-foreground"
    borderCls := "border-warning/20"
    bgCls := "bg-warning-light/30"
    iconBg := "bg-warning/10"
    iconColor := "text-warning"
    barColor := "bg-warning" }

/-- riskConfig.toxic of RiskCard.jsx. -/
def riskConfigToxic : RiskStyle :=
  { lbl := "Avoid / Toxic Risk"
    badgeCls := "bg-toxic-light text-toxic"
    borderCls := "border-toxic/20"
    bgCls := "bg-toxic-light/30"
    iconBg := "bg-toxic/10"
    iconColor := "text-toxic"
    barColor := "bg-toxic" }

/-- Lookup in the riskConfig object of RiskCard.jsx. -/
def riskConfigLookup (riskLevel : String) : Option RiskStyle :=
  if riskLevel = "safe" then some riskConfigSafe
  else if riskLevel = "adjust" then some riskConfigAdjust
  else if riskLevel = "toxic" then some riskConfigToxic
  else none

/-- Style chosen by RiskCard.jsx: riskConfig at the riskLevel of the result,
with fallback to the safe style. -/
def riskCardConfig (riskLevel : String) : RiskStyle :=
  (riskConfigLookup riskLevel).getD riskConfigSafe

/-! ## Frontend/app/results/page.jsx -/

/-- mapToRiskCard of Frontend/app/results/page.jsx: one backend
AnalysisResult shaped for the RiskCard component. -/
def mapToRiskCard (analysis : AnalysisResult) : RiskCardResult :=
  { drug := analysis.drug
    riskLevel := mapRiskLabel analysis.risk_assessment.risk_label
    riskScore := jsRound (analysis.risk_assessment.confidence_score * 100)
    summary := jsOrStr analysis.llm_generated_explanation.summary ""
    recommendation := jsOrStr analysis.clinical_recommendation.action ""
    affectedGenes := [analysis.pharmacogenomic_profile.primary_gene].filter (fun g => !(g == ""))
    evidenceLevel := "1A"
    guidelines :=
      jsOrStr analysis.llm_generated_explanation.guideline_reference
        (jsOrStr analysis.clinical_recommendation.action "") }

/-- Drug identifiers parsed from the drugs query parameter by the Results
effect of Frontend/app/results/page.jsx: empty for a falsy parameter, the
comma-split otherwise. -/
def queryDrugIds : Option String → List String
  | some p => if p = "" then [] else jsSplitComma p
  | none => []

/-- drugNames of the Results effect of Frontend/app/results/page.jsx: the
query drug identifiers, trimmed and uppercased. -/
def drugNames (drugIds : List String) : List String :=
  drugIds.map (fun d => jsToUpperCase (jsTrim d))

/-! ## Frontend/lib/mock-data.js -/

/-- mockRiskResults.warfarin of Frontend/lib/mock-data.js. -/
def mockWarfarin : RiskCardResult :=
  { drug := "Warfarin"
    riskLevel := "adjust"
    riskScore := 72
    summary := "CYP2C9 *1/*3 and VKORC1 -1639 G>A variants detected. Patient requires reduced warfarin dose. Standard dosing may lead to over-anticoagulation and increased bleeding risk."
    recommendation := "Reduce initial dose by 25-50% based on FDA-approved pharmacogenomic dosing table. Monitor INR closely during initiation."
    affectedGenes := ["CYP2C9", "VKORC1"]
    evidenceLevel := "1A"
    guidelines := "CPIC Guideline for Warfarin and CYP2C9/VKORC1 (2017)" }

/-- mockRiskResults.clopidogrel of Frontend/lib/mock-data.js. -/
def mockClopidogrel : RiskCardResult :=
  { drug := "Clopidogrel"
    riskLevel := "toxic"
    riskScore := 91
    summary := "CYP2C19 *2/*2 Poor Metabolizer phenotype detected. Clopidogrel is a prodrug requiring CYP2C19 activation. Patient cannot effectively convert clopidogrel to its active metabolite."
    recommendation := "Avoid clopidogrel. Consider alternative antiplatelet therapy such as prasugrel or ticagrelor, which are not dependent on CYP2C19 metabolism."
    affectedGenes := ["CYP2C19"]
    evidenceLevel := "1A"
    guidelines := "CPIC Guideline for Clopidogrel and CYP2C19 (2022)" }

/-- mockRiskResults.codeine of Frontend/lib/mock-data.js. -/
def mockCodeine : RiskCardResult :=
  { drug := "Codeine"
    riskLevel := "safe"
    riskScore := 15
    summary := "CYP2D6 *4/*4 Poor Metabolizer phenotype detected. Codeine requires CYP2D6 to convert to morphine. Patient will experience significantly reduced analgesic effect."
    recommendation := "Codeine will be ineffective for this patient due to inability to form active metabolite morphine. Consider non-opioid alternatives or opioids not dependent on CYP2D6 such as morphine or oxymorphone."
    affectedGenes := ["CYP2D6"]
    evidenceLevel := "1A"
    guidelines := "CPIC Guideline for Codeine and CYP2D6 (2019)" }

/-- mockRiskResults.simvastatin of Frontend/lib/mock-data.js. -/
def mockSimvastatin : RiskCardResult :=
  { drug := "Simvastatin"
    riskLevel := "adjust"
    riskScore := 58
    summary := "SLCO1B1 variant detected (simulated). Increased risk of simvastatin-induced myopathy. Patient has elevated plasma levels of the active acid form."
    recommendation := "Prescribe a lower dose of simvastatin (max 20mg) or consider an alternative statin such as pravastatin or rosuvastatin which are less affected by SLCO1B1 variants."
    affectedGenes := ["SLCO1B1"]
    evidenceLevel := "1A"
    guidelines := "CPIC Guideline for Simvastatin and SLCO1B1 (2014)" }

/-- mockRiskResults.tamoxifen of Frontend/lib/mock-data.js. -/
def mockTamoxifen : RiskCardResult :=
  { drug := "Tamoxifen"
    riskLevel := "toxic"
    riskScore := 85
    summary := "CYP2D6 *4/*4 Poor Metabolizer phenotype detected. Tamoxifen requires CYP2D6-mediated conversion to endoxifen (active metabolite). Severely reduced endoxifen concentrations expected."
    recommendation := "Consider alternative endocrine therapy such as an aromatase inhibitor (in postmenopausal women) or increased tamoxifen dose under specialist supervision with therapeutic drug monitoring."
    affectedGenes := ["CYP2D6"]
    evidenceLevel := "1A"
    guidelines := "CPIC Guideline for Tamoxifen and CYP2D6 (2018)" }

/-- mockRiskResults.abacavir of Frontend/lib/mock-data.js. -/
def mockAbacavir : RiskCardResult :=
  { drug := "Abacavir"
    riskLevel := "toxic"
    riskScore := 98
    summary := "HLA-B*57:01 positive. This allele is strongly associated with abacavir hypersensitivity reaction (HSR), a potentially fatal multi-organ clinical syndrome."
    recommendation := "DO NOT prescribe abacavir. HLA-B*57:01 positive patients must avoid abacavir. Use alternative antiretroviral agents. This is an FDA boxed warning."
    affectedGenes := ["HLA-B"]
    evidenceLevel := "1A"
    guidelines := "CPIC Guideline for Abacavir and HLA-B (2014)" }

/-- mockRiskResults.carbamazepine of Frontend/lib/mock-data.js. -/
def mockCarbamazepine : RiskCardResult :=
  { drug := "Carbamazepine"
    riskLevel := "safe"
    riskScore := 22
    summary := "No high-risk HLA alleles detected for carbamazepine hypersensitivity. Standard pharmacogenomic risk factors are within normal range for this patient."
    recommendation := "Standard dosing may be used. Monitor for common side effects including dizziness, drowsiness, and nausea. Routine therapeutic drug monitoring is still recommended."
    affectedGenes := []
    evidenceLevel := "1A"
    guidelines := "CPIC Guideline for Carbamazepine and HLA-B/HLA-A (2017)" }

/-- mockRiskResults.fluorouracil of Frontend/lib/mock-data.js. -/
def mockFluorouracil : RiskCardResult :=
  { drug := "5-Fluorouracil"
    riskLevel := "toxic"
    riskScore := 95
    summary := "DPYD *2A variant detected. This results in complete DPD enzyme deficiency. 5-Fluorouracil and capecitabine are contraindicated due to risk of severe, life-threatening toxicity."
    recommendation := "DO NOT administer 5-fluorouracil or capecitabine. Complete DPD deficiency carries a high risk of fatal toxicity. Seek alternative chemotherapy regimens. This is an FDA boxed warning."
    affectedGenes := ["DPYD"]
    evidenceLevel := "1A"
    guidelines := "CPIC Guideline for Fluoropyrimidines and DPYD (2018)" }

/-- mockRiskResults of Frontend/lib/mock-data.js as a keyed lookup (none for
an absent key, matching an undefined property access). -/
def mockRiskResults (id_ : String) : Option RiskCardResult :=
  if id_ = "warfarin" then some mockWarfarin
  else if id_ = "clopidogrel" then some mockClopidogrel
  else if id_ = "codeine" then some mockCodeine
  else if id_ = "simvastatin" then some mockSimvastatin
  else if id_ = "tamoxifen" then some mockTamoxifen
  else if id_ = "abacavir" then some mockAbacavir
  else if id_ = "carbamazepine" then some mockCarbamazepine
  else if id_ = "fluorouracil" then some mockFluorouracil
  else none

/-- Object.values of mockRiskResults: the entries in insertion order. -/
def mockRiskResultsValues : List RiskCardResult :=
  [mockWarfarin, mockClopidogrel, mockCodeine, mockSimvastatin,
   mockTamoxifen, mockAbacavir, mockCarbamazepine, mockFluorouracil]

/-- Results list computed by the effect of the Results component of
Frontend/app/results/page.jsx, as a function of the session and drugs query
parameters and of the fetch outcome. -/
def resultsFromEffect (session drugsParam : Option String) (outcome : FetchOutcome) :
    List RiskCardResult :=
  let drugIds := queryDrugIds drugsParam
  if !(jsTruthyStr session) || drugIds.length == 0 then
    mockRiskResultsValues
  else
    match outcome with
    | FetchOutcome.success data => (normalizeAnalysisResponse data).map mapToRiskCard
    | FetchOutcome.failure _ =>
      let fallback := drugIds.filterMap mockRiskResults
      if fallback.length > 0 then fallback else mockRiskResultsValues

/-! ## Backend boundary, modelled from the specification -/

/-- Drug list denoted by a request drug field: the single internal
representation of section 9 of the specification. -/
def requestDrugList : DrugField → List String
  | DrugField.one d => [d]
  | DrugField.many ds => ds

/-- Modelled from the spec: the analyze endpoint with its ReportAssembler is
not among the provided sources.  Section 4.6 requires an ordered list of
report objects matching the input drug order for a batch request and one
report object for a single-drug request, section 9 requires the caller shape
to be normalized away, and the api.ts documentation states that one drug
yields a single AnalysisResult and several drugs a multi-drug response.  The
per-drug evaluation is abstracted as the function argument analyze1. -/
def serverRespond (analyze1 : String → AnalysisResult) (request : DrugField) :
    AnalysisResponse :=
  match (requestDrugList request).map analyze1 with
  | [a] => AnalysisResponse.single a
  | results => AnalysisResponse.multi results

/-- Results list saved by handleAnalyze of frontend2/app/page.jsx: the
uppercased selection is sent (as an array, forwarded unchanged by analyzeDrugs
of frontend2/lib/api.ts), and the response is normalized inline. -/
def handleAnalyzeResults (analyze1 : String → AnalysisResult)
    (selectedDrugs : List String) : List AnalysisResult :=
  handleAnalyzeNormalize (serverRespond analyze1 (handleAnalyzeRequestDrugs selectedDrugs))

/-! ## Severity vocabularies -/

/-- Severity values of the DrugAnalysis interface of frontend2/lib/api.ts. -/
def frontend2SeverityValues : List String := ["Low", "Moderate", "High", "Critical"]

/-- Severity values of the RiskAssessment interface of Frontend/lib/api.ts,
annotated there as matching the backend. -/
def frontendSeverityValues : List String := ["none", "low", "moderate", "high", "critical"]

/-! ## Theorems -/

/-- Helper: the composite client pipeline of frontend2 maps the per-drug
evaluation over the uppercased selection. -/
lemma handleAnalyzeResults_eq_map (analyze1 : String → AnalysisResult) :
    ∀ selectedDrugs : List String,
      handleAnalyzeResults analyze1 selectedDrugs
        = selectedDrugs.map (fun d => analyze1 (jsToUpperCase d))
  | [] => rfl
  | [_] => rfl
  | _ :: _ :: _ => by
    simp [handleAnalyzeResults, handleAnalyzeRequestDrugs, drugsUppercase, serverRespond,
      requestDrugList, handleAnalyzeNormalize, List.map_map, Function.comp]

/-- C1: a batch analysis over an ordered drug list yields exactly one entry
per requested drug, in request order.  The frontend2 home page sends the
uppercased selection in selection order, the response (whose assembly order
is modelled from the specification) is normalized without reordering, so the
stored results list is the selection list mapped through the per-drug
evaluation; in particular normalizeAnalysisResponse keeps the analyses array
of a multi-drug response unchanged in length and order, and wraps a
single-drug response as a one-element array. -/
theorem batch_results_one_per_drug_in_request_order :
    ∀ (analyze1 : String → AnalysisResult) (selectedDrugs : List String),
      handleAnalyzeResults analyze1 selectedDrugs
          = selectedDrugs.map (fun d => analyze1 (jsToUpperCase d))
        ∧ (handleAnalyzeResults analyze1 selectedDrugs).length = selectedDrugs.length
        ∧ (∀ analyses : List AnalysisResult,
            normalizeAnalysisResponse (AnalysisResponse.multi analyses) = analyses)
        ∧ (∀ a : AnalysisResult,
            normalizeAnalysisResponse (AnalysisResponse.single a) = [a]) := by
  intro analyze1 selectedDrugs
  have h := handleAnalyzeResults_eq_map analyze1 selectedDrugs
  exact ⟨h, by simp [h], fun _ => rfl, fun _ => rfl⟩

/-- Helper: the request drug field is a bare string exactly for one-element
lists. -/
lemma analyzeRequestDrug_one_iff :
    ∀ ds : List String, (∃ x, analyzeRequestDrug ds = DrugField.one x) ↔ ds.length = 1
  | [] => by simp [analyzeRequestDrug]
  | [d] => by simp [analyzeRequestDrug]
  | _ :: _ :: _ => by simp [analyzeRequestDrug]

/-- C2: requesting one drug as a bare string and as a one-element list is
equivalent at the boundary.  analyzeDrugs of Frontend/lib/api.ts sends a bare
string exactly when one drug is requested; the backend (modelled from the
specification) evaluates the drug list denoted by either shape, and
normalizeAnalysisResponse collapses both response shapes to the same list, so
the normalized result list only depends on the drug list, never on the
caller shape. -/
theorem single_drug_shape_equivalence :
    (∀ (analyze1 : String → AnalysisResult) (request : DrugField),
        normalizeAnalysisResponse (serverRespond analyze1 request)
          = (requestDrugList request).map analyze1)
    ∧ (∀ (analyze1 : String → AnalysisResult) (d : String),
        normalizeAnalysisResponse (serverRespond analyze1 (DrugField.one d))
          = normalizeAnalysisResponse (serverRespond analyze1 (DrugField.many [d])))
    ∧ (∀ drugs : List String,
        (∃ x, analyzeRequestDrug (normalizedDrugs drugs) = DrugField.one x) ↔
          drugs.length = 1) := by
  refine ⟨?_, ?_, ?_⟩
  · intro analyze1 request
    match request with
    | DrugField.one d => rfl
    | DrugField.many [] => rfl
    | DrugField.many [d] => rfl
    | DrugField.many (_ :: _ :: _) => rfl
  · intro analyze1 d
    rfl
  · intro drugs
    rw [analyzeRequestDrug_one_iff]
    simp [normalizedDrugs]

/-- C6: the display mappings are total and agree.  mapRiskLabel of
Frontend/lib/api.ts and mapRiskLevel of frontend2/app/results/page.jsx return
the same value on every string: safe for Safe and Unknown, adjust for Adjust
Dosage, toxic for Toxic and Ineffective, and safe for any string outside the
enumeration; and RiskCard falls back to the safe style for any riskLevel
outside safe, adjust, toxic. -/
theorem risk_label_display_total :
    (∀ l : String, mapRiskLabel l = mapRiskLevel l)
    ∧ mapRiskLabel "Safe" = "safe"
    ∧ mapRiskLabel "Unknown" = "safe"
    ∧ mapRiskLabel "Adjust Dosage" = "adjust"
    ∧ mapRiskLabel "Toxic" = "toxic"
    ∧ mapRiskLabel "Ineffective" = "toxic"
    ∧ (∀ l : String,
        l ∉ (["Safe", "Adjust Dosage", "Toxic", "Ineffective", "Unknown"] : List String) →
          mapRiskLabel l = "safe")
    ∧ (∀ rl : String,
        rl ∉ (["safe", "adjust", "toxic"] : List String) →
          riskCardConfig rl = riskConfigSafe) := by
  refine ⟨fun l => rfl, rfl, rfl, rfl, rfl, rfl, ?_, ?_⟩
  · intro l h
    simp only [List.mem_cons, List.not_mem_nil, or_false, not_or] at h
    obtain ⟨h1, h2, h3, h4, h5⟩ := h
    simp [mapRiskLabel, h1, h2, h3, h4, h5]
  · intro rl h
    simp only [List.mem_cons, List.not_mem_nil, or_false, not_or] at h
    obtain ⟨h1, h2, h3⟩ := h
    simp [riskCardConfig, riskConfigLookup, h1, h2, h3]

/-- Witness for C6 at the concrete unrecognized strings Bogus and bogus. -/
theorem risk_label_display_total_witness :
    mapRiskLabel "Bogus" = "safe" ∧ riskCardConfig "bogus" = riskConfigSafe := by
  obtain ⟨-, -, -, -, -, -, h7, h8⟩ := risk_label_display_total
  exact ⟨h7 "Bogus" (by decide), h8 "bogus" (by decide)⟩

/-- C5: the risk-card sort of frontend2/app/results/page.jsx orders analyses
by the severity precedence Toxic before Ineffective before Adjust Dosage
before Safe before Unknown, any unrecognized label after all five: the sorted
output is a permutation of the input that is pairwise nondecreasing in the
comparator rank, whose values realize exactly that precedence. -/
theorem risk_cards_sorted_by_severity_precedence :
    (∀ analyses : List AnalysisResult,
        (sortAnalysesBySeverity analyses).Perm analyses
        ∧ (sortAnalysesBySeverity analyses).Pairwise
            (fun a b =>
              riskOrder a.risk_assessment.risk_label ≤ riskOrder b.risk_assessment.risk_label))
    ∧ riskOrder "Toxic" = 0 ∧ riskOrder "Ineffective" = 1 ∧ riskOrder "Adjust Dosage" = 2
    ∧ riskOrder "Safe" = 3 ∧ riskOrder "Unknown" = 4
    ∧ (∀ s : String,
        s ∉ (["Toxic", "Ineffective", "Adjust Dosage", "Safe", "Unknown"] : List String) →
          riskOrder s = 5) := by
  refine ⟨?_, rfl, rfl, rfl, rfl, rfl, ?_⟩
  · intro analyses
    constructor
    · exact List.mergeSort_perm analyses _
    · have h := @List.sorted_mergeSort AnalysisResult
        (fun a b =>
          decide (riskOrder a.risk_assessment.risk_label ≤ riskOrder b.risk_assessment.risk_label))
        (fun a b c hab hbc => by
          simp only [decide_eq_true_eq] at *
          exact Nat.le_trans hab hbc)
        (fun a b => by
          simpa using Nat.le_total (riskOrder a.risk_assessment.risk_label)
            (riskOrder b.risk_assessment.risk_label))
        analyses
      simpa [sortAnalysesBySeverity] using h
  · intro s h
    simp only [List.mem_cons, List.not_mem_nil, or_false, not_or] at h
    obtain ⟨h1, h2, h3, h4, h5⟩ := h
    simp [riskOrder, h1, h2, h3, h4, h5]

/-- Witness for C5: the rank of a concrete unrecognized label, and the sort
applied to a concrete list. -/
theorem risk_cards_sorted_by_severity_precedence_witness :
    riskOrder "Recalled" = 5 ∧ (sortAnalysesBySeverity []).Perm [] :=
  ⟨risk_cards_sorted_by_severity_precedence.2.2.2.2.2.2 "Recalled" (by decide),
   (risk_cards_sorted_by_severity_precedence.1 []).1⟩

/-- Helper: the three banner counters and the count of labels outside the
four counted values partition the analyses list. -/
lemma summaryBanner_partition :
    ∀ analyses : List AnalysisResult,
      summaryBannerToxic analyses + summaryBannerAdjust analyses + summaryBannerSafe analyses
          + (analyses.filter (fun a =>
              !(a.risk_assessment.risk_label == "Toxic"
                || a.risk_assessment.risk_label == "Ineffective"
                || a.risk_assessment.risk_label == "Adjust Dosage"
                || a.risk_assessment.risk_label == "Safe"))).length
        = analyses.length := by
  intro analyses
  induction analyses with
  | nil => rfl
  | cons a t ih =>
    by_cases h1 : a.risk_assessment.risk_label = "Toxic" <;>
      by_cases h2 : a.risk_assessment.risk_label = "Ineffective" <;>
        by_cases h3 : a.risk_assessment.risk_label = "Adjust Dosage" <;>
          by_cases h4 : a.risk_assessment.risk_label = "Safe" <;>
            simp_all [summaryBannerToxic, summaryBannerAdjust, summaryBannerSafe,
              List.filter_cons] <;> omega

/-- Helper: how one more analysis moves the three banner counters, solely as
a function of its risk label. -/
lemma summaryBanner_cons (a : AnalysisResult) (t : List AnalysisResult) :
    ((a.risk_assessment.risk_label = "Toxic" ∨ a.risk_assessment.risk_label = "Ineffective") →
        summaryBannerToxic (a :: t) = summaryBannerToxic t + 1
        ∧ summaryBannerAdjust (a :: t) = summaryBannerAdjust t
        ∧ summaryBannerSafe (a :: t) = summaryBannerSafe t)
    ∧ (a.risk_assessment.risk_label = "Adjust Dosage" →
        summaryBannerToxic (a :: t) = summaryBannerToxic t
        ∧ summaryBannerAdjust (a :: t) = summaryBannerAdjust t + 1
        ∧ summaryBannerSafe (a :: t) = summaryBannerSafe t)
    ∧ (a.risk_assessment.risk_label = "Safe" →
        summaryBannerToxic (a :: t) = summaryBannerToxic t
        ∧ summaryBannerAdjust (a :: t) = summaryBannerAdjust t
        ∧ summaryBannerSafe (a :: t) = summaryBannerSafe t + 1)
    ∧ (a.risk_assessment.risk_label ∉
          (["Toxic", "Ineffective", "Adjust Dosage", "Safe"] : List String) →
        summaryBannerToxic (a :: t) = summaryBannerToxic t
        ∧ summaryBannerAdjust (a :: t) = summaryBannerAdjust t
        ∧ summaryBannerSafe (a :: t) = summaryBannerSafe t) := by
  refine ⟨?_, ?_, ?_, ?_⟩
  · rintro (h | h) <;>
      simp [summaryBannerToxic, summaryBannerAdjust, summaryBannerSafe, List.filter_cons, h]
  · intro h
    simp [summaryBannerToxic, summaryBannerAdjust, summaryBannerSafe, List.filter_cons, h]
  · intro h
    simp [summaryBannerToxic, summaryBannerAdjust, summaryBannerSafe, List.filter_cons, h]
  · intro h
    simp only [List.mem_cons, List.not_mem_nil, or_false, not_or] at h
    obtain ⟨h1, h2, h3, h4⟩ := h
    simp [summaryBannerToxic, summaryBannerAdjust, summaryBannerSafe, List.filter_cons,
      h1, h2, h3, h4]

/-- C10: the banner counters of frontend2/app/results/page.jsx classify each
analysis solely by risk label: a Toxic or Ineffective analysis raises only
the toxic counter, an Adjust Dosage analysis only the adjust counter, a Safe
analysis only the safe counter, any other label (Unknown included) none of
the three, and the three counts sum to the number of analyses minus those
with labels outside the four counted values. -/
theorem summary_banner_counts_by_label :
    ∀ analyses : List AnalysisResult,
      summaryBannerToxic analyses + summaryBannerAdjust analyses + summaryBannerSafe analyses
          + (analyses.filter (fun a =>
              !(a.risk_assessment.risk_label == "Toxic"
                || a.risk_assessment.risk_label == "Ineffective"
                || a.risk_assessment.risk_label == "Adjust Dosage"
                || a.risk_assessment.risk_label == "Safe"))).length
        = analyses.length
      ∧ (∀ a : AnalysisResult,
          ((a.risk_assessment.risk_label = "Toxic"
              ∨ a.risk_assessment.risk_label = "Ineffective") →
            summaryBannerToxic (a :: analyses) = summaryBannerToxic analyses + 1
            ∧ summaryBannerAdjust (a :: analyses) = summaryBannerAdjust analyses
            ∧ summaryBannerSafe (a :: analyses) = summaryBannerSafe analyses)
          ∧ (a.risk_assessment.risk_label = "Adjust Dosage" →
            summaryBannerToxic (a :: analyses) = summaryBannerToxic analyses
            ∧ summaryBannerAdjust (a :: analyses) = summaryBannerAdjust analyses + 1
            ∧ summaryBannerSafe (a :: analyses) = summaryBannerSafe analyses)
          ∧ (a.risk_assessment.risk_label = "Safe" →
            summaryBannerToxic (a :: analyses) = summaryBannerToxic analyses
            ∧ summaryBannerAdjust (a :: analyses) = summaryBannerAdjust analyses
            ∧ summaryBannerSafe (a :: analyses) = summaryBannerSafe analyses + 1)
          ∧ (a.risk_assessment.risk_label ∉
                (["Toxic", "Ineffective", "Adjust Dosage", "Safe"] : List String) →
            summaryBannerToxic (a :: analyses) = summaryBannerToxic analyses
            ∧ summaryBannerAdjust (a :: analyses) = summaryBannerAdjust analyses
            ∧ summaryBannerSafe (a :: analyses) = summaryBannerSafe analyses)) :=
  fun analyses => ⟨summaryBanner_partition analyses, fun a => summaryBanner_cons a analyses⟩

/-- Sample analysis labeled Unknown, used as a concrete input for the
summary-banner counters. -/
def sampleUnknownAnalysis : AnalysisResult :=
  { patient_id := "P1"
    drug := "ASPIRIN"
    risk_assessment := { risk_label := "Unknown", confidence_score := 0, severity := "none" }
    pharmacogenomic_profile := { primary_gene := "G", diplotype := "D", phenotype := "Unknown" }
    clinical_recommendation := { action := "X", alternative_drugs := [] }
    llm_generated_explanation := { summary := "S", mechanism := "M", guideline_reference := "R" } }

/-- Witness for C10: one analysis labeled Unknown is counted by none of the
three banner counters. -/
theorem summary_banner_counts_by_label_witness :
    summaryBannerToxic [sampleUnknownAnalysis] = summaryBannerToxic []
    ∧ summaryBannerAdjust [sampleUnknownAnalysis] = summaryBannerAdjust []
    ∧ summaryBannerSafe [sampleUnknownAnalysis] = summaryBannerSafe [] := by
  have h := (summary_banner_counts_by_label []).2 sampleUnknownAnalysis
  exact h.2.2.2 (by decide)

/-- Counterexample for C4: on a non-ok response whose body is JSON without a
detail field, analyzeDrugs throws the generic message Analysis failed, not
the status-based message the claim states for every non-detail case. -/
theorem analyzeDrugs_json_no_detail_counterexample :
    analyzeDrugs "session1" ["CODEINE"]
        (fun _ => { ok := false, status := 500, errorBody := some none,
                    successBody := AnalysisResponse.multi [] })
      = Except.error "Analysis failed"
    ∧ ("Analysis failed" : String) ≠ "Analysis failed with status 500" :=
  ⟨rfl, by decide⟩

/-- C4 as amended: analyzeDrugs resolves with the parsed body exactly when
the response is ok; with a missing session or an empty drug list it throws
before any network call; on a non-ok response the thrown message is the
backend detail field when the error body is JSON with a truthy detail, the
status-based message when the body is not JSON, and the generic message
Analysis failed when the body is JSON without a truthy detail; it never
resolves with an error body.  uploadVCF behaves analogously with its own
messages. -/
theorem analyze_upload_error_handling :
    (∀ (drugs : List String) (net net₂ : DrugField → HttpResponse AnalysisResponse),
        analyzeDrugs "" drugs net
            = Except.error "session_id is required. Please upload a VCF file first."
        ∧ analyzeDrugs "" drugs net = analyzeDrugs "" drugs net₂)
    ∧ (∀ (sessionId : String) (net net₂ : DrugField → HttpResponse AnalysisResponse),
        sessionId ≠ "" →
          analyzeDrugs sessionId [] net = Except.error "At least one drug must be specified."
          ∧ analyzeDrugs sessionId [] net = analyzeDrugs sessionId [] net₂)
    ∧ (∀ (sessionId : String) (drugs : List String)
          (net : DrugField → HttpResponse AnalysisResponse),
        sessionId ≠ "" → drugs ≠ [] →
          ((∃ b, analyzeDrugs sessionId drugs net = Except.ok b) ↔
              (net (analyzeRequestDrug (normalizedDrugs drugs))).ok = true)
          ∧ ((net (analyzeRequestDrug (normalizedDrugs drugs))).ok = true →
              analyzeDrugs sessionId drugs net
                = Except.ok (net (analyzeRequestDrug (normalizedDrugs drugs))).successBody)
          ∧ ((net (analyzeRequestDrug (normalizedDrugs drugs))).ok = false →
              (net (analyzeRequestDrug (normalizedDrugs drugs))).errorBody = none →
              analyzeDrugs sessionId drugs net
                = Except.error ("Analysis failed with status "
                    ++ toString (net (analyzeRequestDrug (normalizedDrugs drugs))).status))
          ∧ (∀ detail : String,
              (net (analyzeRequestDrug (normalizedDrugs drugs))).ok = false →
              (net (analyzeRequestDrug (normalizedDrugs drugs))).errorBody = some (some detail) →
              detail ≠ "" →
              analyzeDrugs sessionId drugs net = Except.error detail)
          ∧ ((net (analyzeRequestDrug (normalizedDrugs drugs))).ok = false →
              ((net (analyzeRequestDrug (normalizedDrugs drugs))).errorBody = some none
                ∨ (net (analyzeRequestDrug (normalizedDrugs drugs))).errorBody = some (some "")) →
              analyzeDrugs sessionId drugs net = Except.error "Analysis failed"))
    ∧ (∀ res : HttpResponse UploadVCFResponse,
        ((∃ b, uploadVCF res = Except.ok b) ↔ res.ok = true)
        ∧ (res.ok = true → uploadVCF res = Except.ok res.successBody)
        ∧ (res.ok = false → res.errorBody = none →
            uploadVCF res = Except.error ("Upload failed with status " ++ toString res.status))
        ∧ (∀ detail : String, res.ok = false → res.errorBody = some (some detail) → detail ≠ "" →
            uploadVCF res = Except.error detail)
        ∧ (res.ok = false →
            (res.errorBody = some none ∨ res.errorBody = some (some "")) →
            uploadVCF res = Except.error "VCF upload failed")) := by
  refine ⟨?_, ?_, ?_, ?_⟩
  · intro drugs net net₂
    constructor <;> simp [analyzeDrugs]
  · intro sessionId net net₂ hs
    constructor <;> simp [analyzeDrugs, hs]
  · intro sessionId drugs net hs hd
    have hlen : drugs.length ≠ 0 := by simpa [List.length_eq_zero] using hd
    refine ⟨?_, ?_, ?_, ?_, ?_⟩
    · constructor
      · rintro ⟨b, hb⟩
        by_contra hok
        simp [analyzeDrugs, hs, hlen, Bool.eq_false_iff.mpr hok] at hb
        rcases h : (net (analyzeRequestDrug (normalizedDrugs drugs))).errorBody with _ | d <;>
          simp [h] at hb
      · intro hok
        exact ⟨(net (analyzeRequestDrug (normalizedDrugs drugs))).successBody,
          by simp [analyzeDrugs, hs, hlen, hok]⟩
    · intro hok
      simp [analyzeDrugs, hs, hlen, hok]
    · intro hok hb
      simp [analyzeDrugs, hs, hlen, hok, hb]
    · intro detail hok hb hdet
      simp [analyzeDrugs, hs, hlen, hok, hb, jsOrOpt, hdet]
    · rintro hok (hb | hb) <;> simp [analyzeDrugs, hs, hlen, hok, hb, jsOrOpt]
  · intro res
    refine ⟨?_, ?_, ?_, ?_, ?_⟩
    · constructor
      · rintro ⟨b, hb⟩
        by_contra hok
        simp [uploadVCF, Bool.eq_false_iff.mpr hok] at hb
        rcases h : res.errorBody with _ | d <;> simp [h] at hb
      · intro hok
        exact ⟨res.successBody, by simp [uploadVCF, hok]⟩
    · intro hok
      simp [uploadVCF, hok]
    · intro hok hb
      simp [uploadVCF, hok, hb]
    · intro detail hok hb hdet
      simp [uploadVCF, hok, hb, jsOrOpt, hdet]
    · rintro hok (hb | hb) <;> simp [uploadVCF, hok, hb, jsOrOpt]

/-- Witness for C4 at concrete inputs: the synchronous session guard, a
resolving ok response, and the not-JSON status message. -/
theorem analyze_upload_error_handling_witness :
    analyzeDrugs "" ["CODEINE"] (fun _ => ⟨true, 200, none, AnalysisResponse.multi []⟩)
        = Except.error "session_id is required. Please upload a VCF file first."
    ∧ analyzeDrugs "s1" ["CODEINE"] (fun _ => ⟨true, 200, none, AnalysisResponse.multi []⟩)
        = Except.ok (AnalysisResponse.multi [])
    ∧ uploadVCF ⟨false, 503, none, ⟨"", ""⟩⟩
        = Except.error "Upload failed with status 503" := by
  refine ⟨(analyze_upload_error_handling.1 ["CODEINE"]
    (fun _ => ⟨true, 200, none, AnalysisResponse.multi []⟩)
    (fun _ => ⟨true, 200, none, AnalysisResponse.multi []⟩)).1, ?_, ?_⟩
  · exact ((analyze_upload_error_handling.2.2.1 "s1" ["CODEINE"]
      (fun _ => ⟨true, 200, none, AnalysisResponse.multi []⟩) (by decide) (by decide)).2.1 rfl)
  · exact ((analyze_upload_error_handling.2.2.2 ⟨false, 503, none, ⟨"", ""⟩⟩).2.2.1 rfl rfl)

/-- Counterexample for C9: the frontend2 home page only uppercases the
selection before sending it (analyzeDrugs of frontend2/lib/api.ts forwards
the array unchanged), so a drug name with surrounding whitespace does not
produce the same request as its trimmed form. -/
theorem frontend2_request_not_trimmed_counterexample :
    handleAnalyzeRequestDrugs [" Codeine "] = DrugField.many [" CODEINE "]
    ∧ handleAnalyzeRequestDrugs [" Codeine "] ≠ handleAnalyzeRequestDrugs ["CODEINE"] := by
  exact ⟨by decide, by decide⟩

/-- C9 as amended: the Frontend analysis boundary (normalizedDrugs of
analyzeDrugs in Frontend/lib/api.ts) and the client results page (drugNames)
trim and uppercase every requested drug name while preserving list order, so
those two boundaries agree and are insensitive to case and surrounding
whitespace; the frontend2 home page (drugsUppercase) only uppercases, so it
is insensitive to case but preserves surrounding whitespace. -/
theorem drug_name_normalization_amended :
    (∀ drugIds : List String, drugNames drugIds = normalizedDrugs drugIds)
    ∧ (∀ ds : List String,
        (normalizedDrugs ds).length = ds.length ∧ (drugsUppercase ds).length = ds.length)
    ∧ (∀ ds es : List String,
        ds.map (fun d => jsToUpperCase (jsTrim d)) = es.map (fun d => jsToUpperCase (jsTrim d)) →
          normalizedDrugs ds = normalizedDrugs es)
    ∧ normalizedDrugs ["codeine", " Codeine ", "CODEINE"] = ["CODEINE", "CODEINE", "CODEINE"]
    ∧ (∀ ds es : List String,
        ds.map jsToUpperCase = es.map jsToUpperCase → drugsUppercase ds = drugsUppercase es) := by
  refine ⟨fun _ => rfl, fun ds => ⟨by simp [normalizedDrugs], by simp [drugsUppercase]⟩,
    fun ds es h => h, by decide, fun ds es h => h⟩

/-- Witness for C9 at concrete inputs: a padded mixed-case name and the bare
lower-case name yield the same Frontend request list. -/
theorem drug_name_normalization_amended_witness :
    normalizedDrugs [" Codeine "] = normalizedDrugs ["codeine"] :=
  drug_name_normalization_amended.2.2.1 [" Codeine "] ["codeine"] (by decide)

/-- Sample analysis carrying the backend severity vocabulary (lower-case
critical), as Frontend/lib/api.ts declares it. -/
def sampleCriticalAnalysis : AnalysisResult :=
  { patient_id := "P2"
    drug := "WARFARIN"
    risk_assessment := { risk_label := "Toxic", confidence_score := 1, severity := "critical" }
    pharmacogenomic_profile := { primary_gene := "CYP2C9", diplotype := "*3/*3", phenotype := "PM" }
    clinical_recommendation := { action := "Avoid warfarin", alternative_drugs := [] }
    llm_generated_explanation := { summary := "S", mechanism := "M", guideline_reference := "R" } }

/-- C3 fails on the code: the two frontends declare different severity
vocabularies for the same field.  The DrugAnalysis interface of
frontend2/lib/api.ts uses the title-case tiers Low, Moderate, High, Critical,
while the RiskAssessment interface of Frontend/lib/api.ts — annotated as
matching the backend — uses the lower-case tiers none, low, moderate, high,
critical; consequently the title-case comparison of toRiskCardProps in
frontend2/app/results/page.jsx never matches a lower-case backend severity
value, and the evidence level degrades to B even for a critical analysis. -/
theorem severity_vocabulary_mismatch :
    ("Critical" ∈ frontend2SeverityValues ∧ "Critical" ∉ frontendSeverityValues)
    ∧ ("critical" ∈ frontendSeverityValues ∧ "critical" ∉ frontend2SeverityValues)
    ∧ frontend2SeverityValues ≠ frontendSeverityValues
    ∧ sampleCriticalAnalysis.risk_assessment.severity ∈ frontendSeverityValues
    ∧ (toRiskCardProps sampleCriticalAnalysis).evidenceLevel = "B" := by
  exact ⟨by decide, by decide, by decide, by decide, rfl⟩

/-- Helper: rounding a rational lying between two integers stays between
them. -/
lemma jsRound_bounds (x : ℚ) (lo hi : ℤ) (hl : (lo : ℚ) ≤ x) (hh : x ≤ (hi : ℚ)) :
    lo ≤ jsRound x ∧ jsRound x ≤ hi := by
  constructor
  · exact Int.le_floor.mpr (by linarith)
  · have h : jsRound x < hi + 1 :=
      Int.floor_lt.mpr (by push_cast; linarith)
    omega

/-- Helper: score range of a Safe analysis. -/
lemma mapRiskScore_safe (a : AnalysisResult)
    (h0 : 0 ≤ a.risk_assessment.confidence_score)
    (h : a.risk_assessment.risk_label = "Safe")
    (h1 : a.risk_assessment.confidence_score ≤ 1) :
    0 ≤ mapRiskScore a ∧ mapRiskScore a ≤ 30 := by
  have hv : mapRiskScore a = jsRound ((1 - a.risk_assessment.confidence_score) * 30) := by
    simp [mapRiskScore, h]
  rw [hv]
  exact jsRound_bounds _ 0 30 (by push_cast; linarith) (by push_cast; linarith)

/-- Helper: score range of an Adjust Dosage analysis. -/
lemma mapRiskScore_adjust (a : AnalysisResult)
    (h0 : 0 ≤ a.risk_assessment.confidence_score)
    (h : a.risk_assessment.risk_label = "Adjust Dosage")
    (h1 : a.risk_assessment.confidence_score ≤ 1) :
    40 ≤ mapRiskScore a ∧ mapRiskScore a ≤ 70 := by
  have hv : mapRiskScore a = jsRound (40 + a.risk_assessment.confidence_score * 30) := by
    simp [mapRiskScore, h]
  rw [hv]
  exact jsRound_bounds _ 40 70 (by push_cast; linarith) (by push_cast; linarith)

/-- Helper: score range of a Toxic or Ineffective analysis. -/
lemma mapRiskScore_toxic (a : AnalysisResult)
    (h0 : 0 ≤ a.risk_assessment.confidence_score)
    (h : a.risk_assessment.risk_label = "Toxic" ∨ a.risk_assessment.risk_label = "Ineffective")
    (h1 : a.risk_assessment.confidence_score ≤ 1) :
    60 ≤ mapRiskScore a ∧ mapRiskScore a ≤ 100 := by
  have hv : mapRiskScore a = jsRound (60 + a.risk_assessment.confidence_score * 40) := by
    rcases h with h | h <;> simp [mapRiskScore, h]
  rw [hv]
  exact jsRound_bounds _ 60 100 (by push_cast; linarith) (by push_cast; linarith)

/-- Helper: score of an analysis with a label outside the four mapped
values. -/
lemma mapRiskScore_other (a : AnalysisResult)
    (h : a.risk_assessment.risk_label ∉
        (["Safe", "Adjust Dosage", "Toxic", "Ineffective"] : List String)) :
    mapRiskScore a = 50 := by
  simp only [List.mem_cons, List.not_mem_nil, or_false, not_or] at h
  obtain ⟨h1, h2, h3, h4⟩ := h
  simp [mapRiskScore, h1, h2, h3, h4]

/-- C7: for a confidence score in the unit interval, mapRiskScore of
frontend2/app/results/page.jsx returns an integer in 0..100: in 0..30 for
Safe, in 40..70 for Adjust Dosage, in 60..100 for Toxic or Ineffective, and
exactly 50 for any other label; in particular every Toxic or Ineffective
score strictly exceeds every Safe score. -/
theorem mapRiskScore_bounds :
    (∀ a : AnalysisResult,
        0 ≤ a.risk_assessment.confidence_score → a.risk_assessment.confidence_score ≤ 1 →
          (0 ≤ mapRiskScore a ∧ mapRiskScore a ≤ 100)
          ∧ (a.risk_assessment.risk_label = "Safe" →
              0 ≤ mapRiskScore a ∧ mapRiskScore a ≤ 30)
          ∧ (a.risk_assessment.risk_label = "Adjust Dosage" →
              40 ≤ mapRiskScore a ∧ mapRiskScore a ≤ 70)
          ∧ ((a.risk_assessment.risk_label = "Toxic"
              ∨ a.risk_assessment.risk_label = "Ineffective") →
              60 ≤ mapRiskScore a ∧ mapRiskScore a ≤ 100)
          ∧ (a.risk_assessment.risk_label ∉
                (["Safe", "Adjust Dosage", "Toxic", "Ineffective"] : List String) →
              mapRiskScore a = 50))
    ∧ (∀ a b : AnalysisResult,
        0 ≤ a.risk_assessment.confidence_score → a.risk_assessment.confidence_score ≤ 1 →
        0 ≤ b.risk_assessment.confidence_score → b.risk_assessment.confidence_score ≤ 1 →
        (a.risk_assessment.risk_label = "Toxic"
          ∨ a.risk_assessment.risk_label = "Ineffective") →
        b.risk_assessment.risk_label = "Safe" →
          mapRiskScore b < mapRiskScore a) := by
  have total : ∀ a : AnalysisResult,
      0 ≤ a.risk_assessment.confidence_score → a.risk_assessment.confidence_score ≤ 1 →
        0 ≤ mapRiskScore a ∧ mapRiskScore a ≤ 100 := by
    intro a h0 h1
    by_cases hS : a.risk_assessment.risk_label = "Safe"
    · have := mapRiskScore_safe a h0 hS h1
      omega
    · by_cases hA : a.risk_assessment.risk_label = "Adjust Dosage"
      · have := mapRiskScore_adjust a h0 hA h1
        omega
      · by_cases hT : a.risk_assessment.risk_label = "Toxic"
          ∨ a.risk_assessment.risk_label = "Ineffective"
        · have := mapRiskScore_toxic a h0 hT h1
          omega
        · rw [mapRiskScore_other a (by simp_all [not_or])]
          omega
  refine ⟨?_, ?_⟩
  · intro a h0 h1
    exact ⟨total a h0 h1, fun h => mapRiskScore_safe a h0 h h1,
      fun h => mapRiskScore_adjust a h0 h h1, fun h => mapRiskScore_toxic a h0 h h1,
      fun h => mapRiskScore_other a h⟩
  · intro a b ha0 ha1 hb0 hb1 hT hS
    have h1 := mapRiskScore_toxic a ha0 hT ha1
    have h2 := mapRiskScore_safe b hb0 hS hb1
    omega

/-- Sample Safe analysis with full confidence, a concrete input for
mapRiskScore. -/
def sampleSafeAnalysis : AnalysisResult :=
  { patient_id := "P3"
    drug := "CODEINE"
    risk_assessment := { risk_label := "Safe", confidence_score := 1, severity := "low" }
    pharmacogenomic_profile := { primary_gene := "CYP2D6", diplotype := "*1", phenotype := "NM" }
    clinical_recommendation := { action := "Standard dosing", alternative_drugs := [] }
    llm_generated_explanation := { summary := "S", mechanism := "M", guideline_reference := "R" } }

/-- Witness for C7 at concrete analyses with confidence one: the Safe score
stays at most 30 and lies strictly below the Toxic score. -/
theorem mapRiskScore_bounds_witness :
    mapRiskScore sampleSafeAnalysis ≤ 30
    ∧ mapRiskScore sampleSafeAnalysis < mapRiskScore sampleCriticalAnalysis := by
  have hc0 : (0 : ℚ) ≤ sampleSafeAnalysis.risk_assessment.confidence_score := zero_le_one
  have hc1 : sampleSafeAnalysis.risk_assessment.confidence_score ≤ 1 := le_refl 1
  have hd0 : (0 : ℚ) ≤ sampleCriticalAnalysis.risk_assessment.confidence_score := zero_le_one
  have hd1 : sampleCriticalAnalysis.risk_assessment.confidence_score ≤ 1 := le_refl 1
  have h1 := (mapRiskScore_bounds.1 sampleSafeAnalysis hc0 hc1).2.1 rfl
  have h2 := mapRiskScore_bounds.2 sampleCriticalAnalysis sampleSafeAnalysis
    hd0 hd1 hc0 hc1 (Or.inl rfl) rfl
  exact ⟨h1.2, h2⟩

/-- C8: the Results effect of Frontend/app/results/page.jsx is a pure
function of the session parameter, the drugs parameter and the fetch
outcome, so two runs with identical inputs produce identical results lists;
on API failure the demo fallback does not depend on the error message and is
exactly the order-preserving mockRiskResults lookup over the requested drug
identifiers, with the full mock set substituted precisely when no requested
identifier matches. -/
theorem results_effect_deterministic_fallback :
    ∀ (session drugsParam : Option String) (msg msg₂ : String),
      resultsFromEffect session drugsParam (FetchOutcome.failure msg)
          = resultsFromEffect session drugsParam (FetchOutcome.failure msg₂)
      ∧ (jsTruthyStr session = true → queryDrugIds drugsParam ≠ [] →
          (resultsFromEffect session drugsParam (FetchOutcome.failure msg)
              = if (queryDrugIds drugsParam).filterMap mockRiskResults ≠ []
                then (queryDrugIds drugsParam).filterMap mockRiskResults
                else mockRiskResultsValues)
          ∧ ((queryDrugIds drugsParam).filterMap mockRiskResults = [] ↔
              ∀ dId ∈ queryDrugIds drugsParam, mockRiskResults dId = none))
      ∧ (∀ data : AnalysisResponse, jsTruthyStr session = true →
          queryDrugIds drugsParam ≠ [] →
          resultsFromEffect session drugsParam (FetchOutcome.success data)
            = (normalizeAnalysisResponse data).map mapToRiskCard) := by
  intro session drugsParam msg msg₂
  refine ⟨?_, fun hs hd => ⟨?_, List.filterMap_eq_nil_iff⟩, fun data hs hd => ?_⟩
  · simp only [resultsFromEffect]
  · have hlen : (queryDrugIds drugsParam).length ≠ 0 := by
      simpa [List.length_eq_zero] using hd
    rcases h : (queryDrugIds drugsParam).filterMap mockRiskResults with _ | ⟨r, rs⟩ <;>
      simp [resultsFromEffect, hs, hlen, h]
  · have hlen : (queryDrugIds drugsParam).length ≠ 0 := by
      simpa [List.length_eq_zero] using hd
    simp [resultsFromEffect, hs, hlen]

set_option maxRecDepth 20000 in
/-- Witness for C8 at a concrete query: one unknown and one known identifier
give the order-preserving lookup, namely the warfarin mock entry alone. -/
theorem results_effect_deterministic_fallback_witness :
    resultsFromEffect (some "sess") (some "nope,warfarin") (FetchOutcome.failure "boom")
        = (if (queryDrugIds (some "nope,warfarin")).filterMap mockRiskResults ≠ []
           then (queryDrugIds (some "nope,warfarin")).filterMap mockRiskResults
           else mockRiskResultsValues)
    ∧ (queryDrugIds (some "nope,warfarin")).filterMap mockRiskResults = [mockWarfarin] := by
  refine ⟨((results_effect_deterministic_fallback (some "sess") (some "nope,warfarin")
    "boom" "boom").2.1 (by decide) (by decide)).1, by decide⟩
